import Mathlib

/-!
Verification of the firehose trace `Context` (package `firehose`, file
`context.go` of this repository) against its natural-language specification.

The Go source of the `Context` state machine is embedded shallowly below:

* machine integers (`uint64`) are `Nat` with explicit wraparound `% 2^64`
  where the Go code performs arithmetic (`Inc`, `++`, `-`, `+`);
* a Go `panic` becomes `Except.error (GoError.goPanic msg)`; a method call
  on a `nil *Context` receiver that dereferences the receiver becomes
  `Except.error GoError.nilPointerDereference`;
* the `Printer` interface, the `ExtendedStack` and the field encoders
  (`Uint64`, `Hex`, `Addr`, ...) are code of this repository that is not in
  the provided sources; they are modelled from the spec where noted.
-/

namespace Firehose

/-- 2^64, the modulus of Go's `uint64` arithmetic. -/
def U64MOD : Nat := 18446744073709551616

/-- Go `uint64` addition (wraps modulo 2^64). -/
def u64add (a b : Nat) : Nat := (a + b) % U64MOD

/-- Go `uint64` subtraction (wraps modulo 2^64); for `a b < 2^64` this is
the usual two's-complement subtraction. -/
def u64sub (a b : Nat) : Nat := (a + (U64MOD - b % U64MOD)) % U64MOD

/-- Addresses (`common.Address`) are used opaquely by the tracer. -/
abbrev Address := Nat

/-- Hashes (`common.Hash`) are used opaquely by the tracer. -/
abbrev Hash256 := Nat

/-- Byte strings (`[]byte`); Go `nil` is the empty list. -/
abbrev Bytes := List Nat

/-- Modelled from the spec: `big.Int.Bytes()` — the big-endian byte string
of a non-negative integer, empty for zero. -/
def natToBytesAux : Nat → Nat → List Nat
  | 0, _ => []
  | _ + 1, n => if n = 0 then [] else natToBytesAux (n / 256) (n / 256) ++ [n % 256]

/-- Byte encoding of a non-negative `big.Int` (fuel-free wrapper). -/
def natToBytes (n : Nat) : List Nat := natToBytesAux n n

/-- Modelled from the spec: one encoded field of a printed line. The spec's
encoders (`Uint64`, `Uint`, `Uint8`, `Addr`, `Hash`, `Hex`, `BigInt`,
`Bool`, `JSON`, plain strings) each render injectively into the
line protocol, so a field is represented by its encoder tag and the value
it encodes. -/
inductive Field where
  | str (s : String)
  | u64 (n : Nat)
  | u8 (n : Nat)
  | uint (n : Nat)
  | addr (a : Address)
  | hash (h : Hash256)
  | hex (b : Bytes)
  | bigInt (i : Int)
  | bool (b : Bool)
  | json (s : String)
deriving DecidableEq

/-- One line of the firehose line protocol: an event tag plus its encoded
fields, in order. -/
structure Line where
  tag : String
  fields : List Field
deriving DecidableEq

/-- Modelled from the spec: the `Printer` interface with its two variants —
`DelegateToWriterPrinter` (direct sink, lines written immediately to its
writer) and `ToBufferPrinter` (lines accumulated in an in-memory buffer). -/
inductive Printer where
  | delegateToWriter (written : List Line)
  | toBuffer (buffer : List Line)
deriving DecidableEq

/-- A Go runtime failure: an explicit `panic(msg)` from the source, or a
nil-pointer dereference caused by calling a method that reads through a
`nil` receiver. -/
inductive GoError where
  | goPanic (msg : String)
  | nilPointerDereference
deriving DecidableEq

/-- Result of a context operation that can fail fatally. -/
abbrev Res (α : Type) := Except GoError α

/-- The `firehose.Context` struct. `output` state lives inside `printer`. -/
structure Context where
  printer : Printer
  seenBlock : Bool
  inBlock : Bool
  blockLogIndex : Nat
  totalOrderingCounter : Nat
  inTransaction : Bool
  activeCallIndex : String
  nextCallIndex : Nat
  /-- The `ExtendedStack` of call indices, top at the head. Modelled from
  the spec: push/pop/peek with fatal-on-empty semantics. -/
  callIndexStack : List String
deriving DecidableEq

/-- `ctx.printer.Print(tag, fields...)`: append one fully formed line to the
printer's sink. -/
def Context.print (ctx : Context) (l : Line) : Context :=
  { ctx with printer :=
      match ctx.printer with
      | .delegateToWriter w => .delegateToWriter (w ++ [l])
      | .toBuffer b => .toBuffer (b ++ [l]) }

/-- The lines this context's printer has received, in order. -/
def Context.output (ctx : Context) : List Line :=
  match ctx.printer with
  | .delegateToWriter w => w
  | .toBuffer b => b

/-- The lines a printer has received, in order (same as `Context.output`,
at the printer level). -/
def Printer.lines : Printer → List Line
  | .delegateToWriter w => w
  | .toBuffer b => b

/-- `ctx.totalOrderingCounter.Inc()`: increment (wrapping) and return the
new value. -/
def Context.incOrdering (ctx : Context) : Nat × Context :=
  let v := u64add ctx.totalOrderingCounter 1
  (v, { ctx with totalOrderingCounter := v })

/-- `Context.resetBlock`. -/
def Context.resetBlock (ctx : Context) : Context :=
  { ctx with inBlock := false, blockLogIndex := 0, totalOrderingCounter := 0 }

/-- `Context.resetTransaction`: note that it re-creates the call-index stack
and pushes the root index `"0"`, so the stack ends up as `["0"]`. -/
def Context.resetTransaction (ctx : Context) : Context :=
  { ctx with inTransaction := false, nextCallIndex := 0,
             activeCallIndex := "0", callIndexStack := ["0"] }

/-- `firehose.NewContext(printer)`. -/
def NewContext (printer : Printer) : Context :=
  Context.resetTransaction (Context.resetBlock
    { printer := printer, seenBlock := false, inBlock := false,
      blockLogIndex := 0, totalOrderingCounter := 0, inTransaction := false,
      activeCallIndex := "0", nextCallIndex := 0, callIndexStack := ["0"] })

/-- `types.Block`, restricted to the data the tracer reads: number, size,
root, difficulty, plus opaque renderings of the header and uncles used by
the `END_BLOCK` JSON payload. -/
structure Block where
  number : Nat
  size : Nat
  root : Bytes
  difficulty : Int
  headerRepr : String
  unclesRepr : String
deriving DecidableEq

/-- The `JSON(...)` payload of `END_BLOCK` (header, uncles, total
difficulty). Modelled from the spec: a self-describing structured encoding,
represented by an injective concatenation. -/
def endBlockJSON (b : Block) (totalDifficulty : Int) : String :=
  b.headerRepr ++ "|" ++ b.unclesRepr ++ "|" ++ toString totalDifficulty

/-- One receipt log (`types.Log` re-encoded as a `logItem`). -/
structure LogItem where
  address : Address
  topics : List Hash256
  data : Bytes
deriving DecidableEq

/-- The `JSON(logItems)` payload of `END_APPLY_TRX`. Modelled from the
spec: a self-describing structured encoding, represented injectively. -/
def logItemsJSON (ls : List LogItem) : String :=
  String.intercalate ";"
    (ls.map fun l =>
      toString l.address ++ ":" ++ toString l.topics ++ ":" ++ toString l.data)

/-- `types.Receipt`, restricted to the fields the tracer reads. -/
structure Receipt where
  gasUsed : Nat
  postState : Bytes
  cumulativeGasUsed : Nat
  bloom : Bytes
  logs : List LogItem
deriving DecidableEq

/-- `types.Transaction`, restricted to the fields `StartTransaction` and
`RecordTrxPool` read. `v`, `r`, `s` are the raw signature byte strings. -/
structure Transaction where
  hash : Hash256
  toAddr : Option Address
  value : Nat
  v : Bytes
  r : Bytes
  s : Bytes
  gas : Nat
  gasPrice : Nat
  nonce : Nat
  data : Bytes
deriving DecidableEq

/-- `firehose.AccessList` (Berlin fork not active in this branch). -/
abbrev AccessList := List (Address × List Hash256)

/-- `AccessList.marshal`: in this branch always a zero-length list, encoded
as the single byte `0x00`. -/
def AccessList.marshal (_ : AccessList) : Bytes := [0]

/-- `firehose.GasChangeReason`. -/
abbrev GasChangeReason := String

/-- Modelled from the spec: the distinguished "ignored" gas-change reason
tag suppressing emission. -/
def IgnoredGasChangeReason : GasChangeReason := "ignored"

/-- Modelled from the spec: the gas-change reason used by `EndFailedCall`'s
synthesized full-consumption event. -/
def FailedExecutionGasChangeReason : GasChangeReason := "failed_execution"

/-- Modelled from the spec: the gas-change reason used by
`RecordGasRefund`. -/
def RefundAfterExecutionGasChangeReason : GasChangeReason := "refund_after_execution"

/-- `firehose.BalanceChangeReason`. -/
abbrev BalanceChangeReason := String

/-- Modelled from the spec: the distinguished "ignored" balance-change
reason tag suppressing emission. -/
def IgnoredBalanceChangeReason : BalanceChangeReason := "ignored"

/-- `Context.InitVersion` (body after the nil check). -/
def Context.InitVersion (ctx : Context) (nodeVersion dmVersion variant : String) : Context :=
  ctx.print ⟨"INIT", [.str dmVersion, .str variant, .str nodeVersion]⟩

/-- `Context.StartBlock`: `inBlock.CAS(false, true)` or panic, set
`seenBlock`, then print `BEGIN_BLOCK`. There is no nil check in the source.
Note: the total-ordering counter is NOT touched here. -/
def Context.StartBlock (ctx : Context) (block : Block) : Res Context :=
  if ctx.inBlock then
    .error (.goPanic "entering a block while already in a block scope")
  else
    let ctx := { ctx with inBlock := true, seenBlock := true }
    .ok (ctx.print ⟨"BEGIN_BLOCK", [.u64 block.number]⟩)

/-- `Context.FinalizeBlock`: prints unconditionally (no in-block check, no
nil check in the source). -/
def Context.FinalizeBlock (ctx : Context) (block : Block) : Res Context :=
  .ok (ctx.print ⟨"FINALIZE_BLOCK", [.u64 block.number]⟩)

/-- `Context.exitBlock`: panics when not in a block, otherwise resets block
state and (because a transaction may still be inflight) transaction state. -/
def Context.exitBlock (ctx : Context) : Res Context :=
  if !ctx.inBlock then
    .error (.goPanic "exiting a block while not already within a block scope")
  else
    .ok ctx.resetBlock.resetTransaction

/-- `Context.EndBlock`: prints `END_BLOCK` then performs `exitBlock`. There
is no nil check in the source. -/
def Context.EndBlock (ctx : Context) (block : Block) (totalDifficulty : Int) : Res Context :=
  let ctx := ctx.print ⟨"END_BLOCK",
    [.u64 block.number, .u64 block.size, .json (endBlockJSON block totalDifficulty)]⟩
  ctx.exitBlock

/-- `Context.CancelBlock` (body after the nil check): `exitBlock` only when
in a block, then print `CANCEL_BLOCK`. -/
def Context.CancelBlock (ctx : Context) (block : Block) (err : String) : Res Context := do
  let ctx ← if ctx.inBlock then ctx.exitBlock else .ok ctx
  .ok (ctx.print ⟨"CANCEL_BLOCK", [.u64 block.number, .str err]⟩)

/-- `Context.StartTransactionRaw` (body after the nil check):
`inTransaction.CAS(false, true)` or panic, then print `BEGIN_APPLY_TRX`
with a freshly incremented ordering sequence number. The max-fee fields are
always the placeholder `"."` in this branch. -/
def Context.StartTransactionRaw (ctx : Context) (hash : Hash256) (toAddr : Option Address)
    (value : Nat) (v r s : Bytes) (gasLimit : Nat) (gasPrice : Nat) (nonce : Nat)
    (data : Bytes) (accessList : AccessList)
    (txType : Nat) (txIndex : Nat) : Res Context :=
  if ctx.inTransaction then
    .error (.goPanic "entering a transaction while already in a transaction scope")
  else
    let ctx := { ctx with inTransaction := true }
    let toField : Field := match toAddr with
      | none => .str "."
      | some a => .addr a
    let (seq, ctx) := ctx.incOrdering
    .ok (ctx.print ⟨"BEGIN_APPLY_TRX",
      [.hash hash, toField, .hex (natToBytes value), .hex v, .hex r, .hex s,
       .u64 gasLimit, .hex (natToBytes gasPrice), .u64 nonce, .hex data,
       .hex accessList.marshal, .str ".", .str ".", .u8 txType,
       .u64 seq, .uint txIndex]⟩)

/-- `Context.StartTransaction` (body after the nil check): extracts the
transaction's fields and delegates to `StartTransactionRaw` with `nil`
access list, fee caps and type 0 (Berlin/London not active in this
branch). The `baseFee` parameter is unused in this branch. -/
def Context.StartTransaction (ctx : Context) (tx : Transaction) (txIndex : Nat)
    (_baseFee : Option Nat) : Res Context :=
  ctx.StartTransactionRaw tx.hash tx.toAddr tx.value tx.v tx.r tx.s tx.gas
    tx.gasPrice tx.nonce tx.data [] 0 txIndex

/-- `Context.RecordTrxFrom` (body after the nil check): panics when no
transaction is open, else prints `TRX_FROM`. -/
def Context.RecordTrxFrom (ctx : Context) (fromAddr : Address) : Res Context :=
  if !ctx.inTransaction then
    .error (.goPanic "the RecordTrxFrom should have been call within a transaction, something is deeply wrong")
  else
    .ok (ctx.print ⟨"TRX_FROM", [.addr fromAddr]⟩)

/-- `Context.Reset` (body after the nil check): `resetBlock` then
`resetTransaction`. -/
def Context.Reset (ctx : Context) : Context :=
  ctx.resetBlock.resetTransaction

/-- `Context.EndTransaction` (body after the nil check): panics when no
transaction is open, prints `END_APPLY_TRX` with a fresh ordering sequence
number and the receipt's logs, then `resetTransaction`. -/
def Context.EndTransaction (ctx : Context) (receipt : Receipt) : Res Context :=
  if !ctx.inTransaction then
    .error (.goPanic "exiting a transaction while not already within a transaction scope")
  else
    let (seq, ctx) := ctx.incOrdering
    let ctx := ctx.print ⟨"END_APPLY_TRX",
      [.u64 receipt.gasUsed, .hex receipt.postState, .u64 receipt.cumulativeGasUsed,
       .hex receipt.bloom, .u64 seq, .json (logItemsJSON receipt.logs)]⟩
    .ok ctx.resetTransaction

/-- `Context.openCall`: wrapping increment of `nextCallIndex`, make its
decimal string the active call index and push it. No transaction check. -/
def Context.openCall (ctx : Context) : String × Context :=
  let next := u64add ctx.nextCallIndex 1
  let idx := toString next
  (idx, { ctx with nextCallIndex := next, activeCallIndex := idx,
                   callIndexStack := idx :: ctx.callIndexStack })

/-- `Context.StartCall` (body after the nil check): prints `EVM_RUN_CALL`
with the newly opened call index and a fresh ordering sequence number.
Note: there is no `inTransaction` check on this path. -/
def Context.StartCall (ctx : Context) (callType : String) : Res Context :=
  let (idx, ctx) := ctx.openCall
  let (seq, ctx) := ctx.incOrdering
  .ok (ctx.print ⟨"EVM_RUN_CALL", [.str callType, .str idx, .u64 seq]⟩)

/-- `Context.callIndex`: panics when no transaction is open, else returns
the active call index. -/
def Context.callIndex (ctx : Context) : Res String :=
  if !ctx.inTransaction then
    .error (.goPanic "should have been call in a transaction, something is deeply wrong")
  else
    .ok ctx.activeCallIndex

/-- `Context.closeCall`: `MustPop` the top call index (fatal on empty
stack), `MustPeek` the new top (fatal on empty stack) into the active call
index, and return the popped index. -/
def Context.closeCall (ctx : Context) : Res (String × Context) :=
  match ctx.callIndexStack with
  | [] => .error (.goPanic "must pop on an empty stack")
  | prev :: rest =>
    match rest with
    | [] => .error (.goPanic "must peek on an empty stack")
    | top :: _ =>
      .ok (prev, { ctx with callIndexStack := rest, activeCallIndex := top })

/-- `Context.RecordCallParams` (body after the nil check). -/
def Context.RecordCallParams (ctx : Context) (callType : String) (caller callee : Address)
    (value : Nat) (gasLimit : Nat) (input : Bytes) : Res Context := do
  let idx ← ctx.callIndex
  .ok (ctx.print ⟨"EVM_PARAM",
    [.str callType, .str idx, .addr caller, .addr callee,
     .hex (natToBytes value), .u64 gasLimit, .hex input]⟩)

/-- `Context.RecordCallWithoutCode` (body after the nil check). -/
def Context.RecordCallWithoutCode (ctx : Context) : Res Context := do
  let idx ← ctx.callIndex
  .ok (ctx.print ⟨"ACCOUNT_WITHOUT_CODE", [.str idx]⟩)

/-- `Context.RecordCallFailed` (body after the nil check). -/
def Context.RecordCallFailed (ctx : Context) (gasLeft : Nat) (reason : String) : Res Context := do
  let idx ← ctx.callIndex
  .ok (ctx.print ⟨"EVM_CALL_FAILED", [.str idx, .u64 gasLeft, .str reason]⟩)

/-- `Context.RecordCallReverted` (body after the nil check). -/
def Context.RecordCallReverted (ctx : Context) : Res Context := do
  let idx ← ctx.callIndex
  .ok (ctx.print ⟨"EVM_REVERTED", [.str idx]⟩)

/-- `Context.EndCall` (body after the nil check): close the call, then
print `EVM_END_CALL` with the popped index, gas left, return value and a
fresh ordering sequence number. -/
def Context.EndCall (ctx : Context) (gasLeft : Nat) (returnValue : Bytes) : Res Context := do
  let (prev, ctx) ← ctx.closeCall
  let (seq, ctx) := ctx.incOrdering
  .ok (ctx.print ⟨"EVM_END_CALL", [.str prev, .u64 gasLeft, .hex returnValue, .u64 seq]⟩)

/-- `Context.RecordKeccak` (body after the nil check). -/
def Context.RecordKeccak (ctx : Context) (hashOfData : Hash256) (data : Bytes) : Res Context := do
  let idx ← ctx.callIndex
  .ok (ctx.print ⟨"EVM_KECCAK", [.str idx, .hash hashOfData, .hex data]⟩)

/-- `Context.RecordGasRefund` (body after the nil check): emits one
`GAS_CHANGE` only when the refund is non-zero. -/
def Context.RecordGasRefund (ctx : Context) (gasOld gasRefund : Nat) : Res Context :=
  if gasRefund ≠ 0 then do
    let idx ← ctx.callIndex
    let (seq, ctx) := ctx.incOrdering
    .ok (ctx.print ⟨"GAS_CHANGE",
      [.str idx, .u64 gasOld, .u64 (u64add gasOld gasRefund),
       .str RefundAfterExecutionGasChangeReason, .u64 seq]⟩)
  else
    .ok ctx

/-- `Context.RecordGasConsume` (body after the nil check): emits one
`GAS_CHANGE` only when the consumed amount is non-zero and the reason is
not the ignored tag; the new-gas field is the wrapping `uint64` difference
`gasOld - gasConsumed`. -/
def Context.RecordGasConsume (ctx : Context) (gasOld gasConsumed : Nat)
    (reason : GasChangeReason) : Res Context :=
  if gasConsumed ≠ 0 ∧ reason ≠ IgnoredGasChangeReason then do
    let idx ← ctx.callIndex
    let (seq, ctx) := ctx.incOrdering
    .ok (ctx.print ⟨"GAS_CHANGE",
      [.str idx, .u64 gasOld, .u64 (u64sub gasOld gasConsumed), .str reason, .u64 seq]⟩)
  else
    .ok ctx

/-- `Context.EndFailedCall` (body after the nil check): `RecordCallFailed`,
then either `RecordCallReverted` (reverted) or a synthesized
full-consumption `RecordGasConsume` after which `gasLeft` is zeroed
(non-reverted), then the same `EVM_END_CALL` line as `EndCall` with a `nil`
return value. Note: `gasLeft` is zeroed only on the NON-reverted branch. -/
def Context.EndFailedCall (ctx : Context) (gasLeft : Nat) (reverted : Bool)
    (reason : String) : Res Context := do
  let ctx ← ctx.RecordCallFailed gasLeft reason
  let (gasLeft, ctx) ←
    if reverted then do
      let ctx ← ctx.RecordCallReverted
      pure (gasLeft, ctx)
    else do
      let ctx ← ctx.RecordGasConsume gasLeft gasLeft FailedExecutionGasChangeReason
      pure (0, ctx)
  let (prev, ctx) ← ctx.closeCall
  let (seq, ctx) := ctx.incOrdering
  .ok (ctx.print ⟨"EVM_END_CALL", [.str prev, .u64 gasLeft, .hex [], .u64 seq]⟩)

/-- `Context.RecordStorageChange` (body after the nil check). -/
def Context.RecordStorageChange (ctx : Context) (addr : Address)
    (key oldData newData : Hash256) : Res Context := do
  let idx ← ctx.callIndex
  let (seq, ctx) := ctx.incOrdering
  .ok (ctx.print ⟨"STORAGE_CHANGE",
    [.str idx, .addr addr, .hash key, .hash oldData, .hash newData, .u64 seq]⟩)

/-- `Context.RecordBalanceChange` (body after the nil check): suppressed
entirely for the ignored reason tag. -/
def Context.RecordBalanceChange (ctx : Context) (addr : Address)
    (oldBalance newBalance : Int) (reason : BalanceChangeReason) : Res Context :=
  if reason ≠ IgnoredBalanceChangeReason then do
    let idx ← ctx.callIndex
    let (seq, ctx) := ctx.incOrdering
    .ok (ctx.print ⟨"BALANCE_CHANGE",
      [.str idx, .addr addr, .bigInt oldBalance, .bigInt newBalance,
       .str reason, .u64 seq]⟩)
  else
    .ok ctx

/-- `Context.logIndexInBlock`: return the current per-block log index as a
decimal string and post-increment it (wrapping). -/
def Context.logIndexInBlock (ctx : Context) : String × Context :=
  (toString ctx.blockLogIndex, { ctx with blockLogIndex := u64add ctx.blockLogIndex 1 })

/-- `Context.RecordLog` (body after the nil check). -/
def Context.RecordLog (ctx : Context) (log : LogItem) : Res Context := do
  let idx ← ctx.callIndex
  let (li, ctx) := ctx.logIndexInBlock
  let (seq, ctx) := ctx.incOrdering
  .ok (ctx.print ⟨"ADD_LOG",
    [.str idx, .str li, .addr log.address,
     .str (String.intercalate "," (log.topics.map toString)),
     .hex log.data, .u64 seq]⟩)

/-- `Context.RecordSuicide` (body after the nil check): prints
`SUICIDE_CHANGE`, then — when the pre-suicide balance is non-zero —
synthesizes a `BALANCE_CHANGE` with reason `suicide_withdraw` reducing the
balance to zero. -/
def Context.RecordSuicide (ctx : Context) (addr : Address) (suicided : Bool)
    (balanceBeforeSuicide : Int) : Res Context := do
  let idx ← ctx.callIndex
  let ctx := ctx.print ⟨"SUICIDE_CHANGE",
    [.str idx, .addr addr, .bool suicided, .bigInt balanceBeforeSuicide]⟩
  if balanceBeforeSuicide ≠ 0 then
    ctx.RecordBalanceChange addr balanceBeforeSuicide 0 "suicide_withdraw"
  else
    .ok ctx

/-- `Context.RecordNewAccount` (body after the nil check). -/
def Context.RecordNewAccount (ctx : Context) (addr : Address) : Res Context := do
  let idx ← ctx.callIndex
  let (seq, ctx) := ctx.incOrdering
  .ok (ctx.print ⟨"CREATED_ACCOUNT", [.str idx, .addr addr, .u64 seq]⟩)

/-- `Context.RecordCodeChange` (body after the nil check). -/
def Context.RecordCodeChange (ctx : Context) (addr : Address) (oldCodeHash oldCode : Bytes)
    (newCodeHash : Hash256) (newCode : Bytes) : Res Context := do
  let idx ← ctx.callIndex
  let (seq, ctx) := ctx.incOrdering
  .ok (ctx.print ⟨"CODE_CHANGE",
    [.str idx, .addr addr, .hex oldCodeHash, .hex oldCode,
     .hash newCodeHash, .hex newCode, .u64 seq]⟩)

/-- `Context.RecordNonceChange` (body after the nil check). -/
def Context.RecordNonceChange (ctx : Context) (addr : Address)
    (oldNonce newNonce : Nat) : Res Context := do
  let idx ← ctx.callIndex
  let (seq, ctx) := ctx.incOrdering
  .ok (ctx.print ⟨"NONCE_CHANGE",
    [.str idx, .addr addr, .u64 oldNonce, .u64 newNonce, .u64 seq]⟩)

/-- `Context.RecordTrxPool` (body after the nil check): stateless print.
The sender is recovered by signature recovery outside this model; recovery
failure yields `none` and the placeholder `"."`. -/
def Context.RecordTrxPool (ctx : Context) (eventType : String) (tx : Transaction)
    (sender : Option Address) : Context :=
  let fromField : Field := match sender with
    | none => .str "."
    | some a => .addr a
  let toField : Field := match tx.toAddr with
    | none => .str "."
    | some a => .addr a
  ctx.print ⟨eventType,
    [.hash tx.hash, fromField, toField, .hex (natToBytes tx.value),
     .hex tx.v, .hex tx.r, .hex tx.s, .u64 tx.gas,
     .hex (natToBytes tx.gasPrice), .u64 tx.nonce, .hex tx.data]⟩

/-- `Context.RecordGenesisBlock` (body after the nil check): panics when in
a block, else records a full synthesized block with one root transaction. -/
def Context.RecordGenesisBlock (ctx : Context) (block : Block)
    (recordGenesisAlloc : Context → Res Context) : Res Context :=
  if ctx.inBlock then
    .error (.goPanic "trying to record genesis block while in block context")
  else do
    let ctx ← ctx.StartBlock block
    let ctx ← ctx.StartTransactionRaw 0 (some 0) 0 [] [] [] 0 0 0 [] [] 0 0
    let ctx ← ctx.RecordTrxFrom 0
    let ctx ← recordGenesisAlloc ctx
    let ctx ← ctx.EndTransaction
      { gasUsed := 0, postState := block.root, cumulativeGasUsed := 0,
        bloom := [], logs := [] }
    let ctx ← ctx.FinalizeBlock block
    ctx.EndBlock block block.difficulty

/-- `Context.FirehoseLog` (body after the nil check): the accumulated
buffer of a buffering printer, `nil` (empty) otherwise. -/
def Context.FirehoseLog (ctx : Context) : List Line :=
  match ctx.printer with
  | .toBuffer b => b
  | .delegateToWriter _ => []

/-- `Context.FlushTransaction`: nil-checks both contexts; when the
transaction context's printer is buffering, writes its buffered lines
verbatim to the process stdout stream (the sync context's direct sink) and
clears the buffer; in all non-nil cases fully resets the transaction
context. Returns the new stdout stream and both contexts. -/
def FlushTransaction (stdout : List Line) (ctx txContext : Option Context) :
    List Line × Option Context × Option Context :=
  match ctx, txContext with
  | none, _ => (stdout, ctx, txContext)
  | some _, none => (stdout, ctx, txContext)
  | some c, some t =>
    match t.printer with
    | .toBuffer buf =>
      let t := { t with printer := .toBuffer [] }
      (stdout ++ buf, some c, some t.Reset)
    | .delegateToWriter _ =>
      (stdout, some c, some t.Reset)

/-! ### The public API on a possibly-nil (`Option`) context

Each public method of the Go source either begins with `if ctx == nil {
return }` — lifted by `liftChecked` / `liftCheckedPure` — or performs no
such check and dereferences the receiver, which on a nil context is a
runtime nil-pointer panic — lifted by `liftUnchecked`. Per the source,
`StartBlock`, `FinalizeBlock` and `EndBlock` are the only public methods
without the nil check. -/

/-- Lift a method whose body begins with the `ctx == nil` guard. -/
def liftChecked (f : Context → Res Context) : Option Context → Res (Option Context)
  | none => .ok none
  | some c => (f c).map some

/-- Lift a non-failing method whose body begins with the `ctx == nil`
guard. -/
def liftCheckedPure (f : Context → Context) : Option Context → Res (Option Context)
  | none => .ok none
  | some c => .ok (some (f c))

/-- Lift a method with no nil guard: on a nil receiver the first field
read is a nil-pointer dereference. -/
def liftUnchecked (f : Context → Res Context) : Option Context → Res (Option Context)
  | none => .error .nilPointerDereference
  | some c => (f c).map some

/-- `(*Context).InitVersion` with its nil check. -/
def InitVersionO (ctx : Option Context) (nodeVersion dmVersion variant : String) :
    Res (Option Context) :=
  liftCheckedPure (fun c => c.InitVersion nodeVersion dmVersion variant) ctx

/-- `(*Context).RecordGenesisBlock` with its nil check. -/
def RecordGenesisBlockO (ctx : Option Context) (block : Block)
    (recordGenesisAlloc : Context → Res Context) : Res (Option Context) :=
  liftChecked (fun c => c.RecordGenesisBlock block recordGenesisAlloc) ctx

/-- `(*Context).StartBlock`: no nil check in the source. -/
def StartBlockO (ctx : Option Context) (block : Block) : Res (Option Context) :=
  liftUnchecked (fun c => c.StartBlock block) ctx

/-- `(*Context).FinalizeBlock`: no nil check in the source. -/
def FinalizeBlockO (ctx : Option Context) (block : Block) : Res (Option Context) :=
  liftUnchecked (fun c => c.FinalizeBlock block) ctx

/-- `(*Context).EndBlock`: no nil check in the source. -/
def EndBlockO (ctx : Option Context) (block : Block) (totalDifficulty : Int) :
    Res (Option Context) :=
  liftUnchecked (fun c => c.EndBlock block totalDifficulty) ctx

/-- `(*Context).CancelBlock` with its nil check. -/
def CancelBlockO (ctx : Option Context) (block : Block) (err : String) :
    Res (Option Context) :=
  liftChecked (fun c => c.CancelBlock block err) ctx

/-- `(*Context).StartTransaction` with its nil check. -/
def StartTransactionO (ctx : Option Context) (tx : Transaction) (txIndex : Nat)
    (baseFee : Option Nat) : Res (Option Context) :=
  liftChecked (fun c => c.StartTransaction tx txIndex baseFee) ctx

/-- `(*Context).StartTransactionRaw` with its nil check. -/
def StartTransactionRawO (ctx : Option Context) (hash : Hash256) (toAddr : Option Address)
    (value : Nat) (v r s : Bytes) (gasLimit : Nat) (gasPrice : Nat) (nonce : Nat)
    (data : Bytes) (accessList : AccessList) (txType : Nat) (txIndex : Nat) :
    Res (Option Context) :=
  liftChecked (fun c => c.StartTransactionRaw hash toAddr value v r s gasLimit
    gasPrice nonce data accessList txType txIndex) ctx

/-- `(*Context).RecordTrxFrom` with its nil check. -/
def RecordTrxFromO (ctx : Option Context) (fromAddr : Address) : Res (Option Context) :=
  liftChecked (fun c => c.RecordTrxFrom fromAddr) ctx

/-- `(*Context).Reset` with its nil check. -/
def ResetO (ctx : Option Context) : Res (Option Context) :=
  liftCheckedPure Context.Reset ctx

/-- `(*Context).EndTransaction` with its nil check. -/
def EndTransactionO (ctx : Option Context) (receipt : Receipt) : Res (Option Context) :=
  liftChecked (fun c => c.EndTransaction receipt) ctx

/-- `(*Context).StartCall` with its nil check. -/
def StartCallO (ctx : Option Context) (callType : String) : Res (Option Context) :=
  liftChecked (fun c => c.StartCall callType) ctx

/-- `(*Context).RecordCallParams` with its nil check. -/
def RecordCallParamsO (ctx : Option Context) (callType : String) (caller callee : Address)
    (value : Nat) (gasLimit : Nat) (input : Bytes) : Res (Option Context) :=
  liftChecked (fun c => c.RecordCallParams callType caller callee value gasLimit input) ctx

/-- `(*Context).RecordCallWithoutCode` with its nil check. -/
def RecordCallWithoutCodeO (ctx : Option Context) : Res (Option Context) :=
  liftChecked Context.RecordCallWithoutCode ctx

/-- `(*Context).RecordCallFailed` with its nil check. -/
def RecordCallFailedO (ctx : Option Context) (gasLeft : Nat) (reason : String) :
    Res (Option Context) :=
  liftChecked (fun c => c.RecordCallFailed gasLeft reason) ctx

/-- `(*Context).RecordCallReverted` with its nil check. -/
def RecordCallRevertedO (ctx : Option Context) : Res (Option Context) :=
  liftChecked Context.RecordCallReverted ctx

/-- `(*Context).EndCall` with its nil check. -/
def EndCallO (ctx : Option Context) (gasLeft : Nat) (returnValue : Bytes) :
    Res (Option Context) :=
  liftChecked (fun c => c.EndCall gasLeft returnValue) ctx

/-- `(*Context).EndFailedCall` with its nil check. -/
def EndFailedCallO (ctx : Option Context) (gasLeft : Nat) (reverted : Bool)
    (reason : String) : Res (Option Context) :=
  liftChecked (fun c => c.EndFailedCall gasLeft reverted reason) ctx

/-- `(*Context).RecordKeccak` with its nil check. -/
def RecordKeccakO (ctx : Option Context) (hashOfData : Hash256) (data : Bytes) :
    Res (Option Context) :=
  liftChecked (fun c => c.RecordKeccak hashOfData data) ctx

/-- `(*Context).RecordGasRefund` with its nil check. -/
def RecordGasRefundO (ctx : Option Context) (gasOld gasRefund : Nat) :
    Res (Option Context) :=
  liftChecked (fun c => c.RecordGasRefund gasOld gasRefund) ctx

/-- `(*Context).RecordGasConsume` with its nil check. -/
def RecordGasConsumeO (ctx : Option Context) (gasOld gasConsumed : Nat)
    (reason : GasChangeReason) : Res (Option Context) :=
  liftChecked (fun c => c.RecordGasConsume gasOld gasConsumed reason) ctx

/-- `(*Context).RecordStorageChange` with its nil check. -/
def RecordStorageChangeO (ctx : Option Context) (addr : Address)
    (key oldData newData : Hash256) : Res (Option Context) :=
  liftChecked (fun c => c.RecordStorageChange addr key oldData newData) ctx

/-- `(*Context).RecordBalanceChange` with its nil check. -/
def RecordBalanceChangeO (ctx : Option Context) (addr : Address)
    (oldBalance newBalance : Int) (reason : BalanceChangeReason) :
    Res (Option Context) :=
  liftChecked (fun c => c.RecordBalanceChange addr oldBalance newBalance reason) ctx

/-- `(*Context).RecordLog` with its nil check. -/
def RecordLogO (ctx : Option Context) (log : LogItem) : Res (Option Context) :=
  liftChecked (fun c => c.RecordLog log) ctx

/-- `(*Context).RecordSuicide` with its nil check. -/
def RecordSuicideO (ctx : Option Context) (addr : Address) (suicided : Bool)
    (balanceBeforeSuicide : Int) : Res (Option Context) :=
  liftChecked (fun c => c.RecordSuicide addr suicided balanceBeforeSuicide) ctx

/-- `(*Context).RecordNewAccount` with its nil check. -/
def RecordNewAccountO (ctx : Option Context) (addr : Address) : Res (Option Context) :=
  liftChecked (fun c => c.RecordNewAccount addr) ctx

/-- `(*Context).RecordCodeChange` with its nil check. -/
def RecordCodeChangeO (ctx : Option Context) (addr : Address) (oldCodeHash oldCode : Bytes)
    (newCodeHash : Hash256) (newCode : Bytes) : Res (Option Context) :=
  liftChecked (fun c => c.RecordCodeChange addr oldCodeHash oldCode newCodeHash newCode) ctx

/-- `(*Context).RecordNonceChange` with its nil check. -/
def RecordNonceChangeO (ctx : Option Context) (addr : Address)
    (oldNonce newNonce : Nat) : Res (Option Context) :=
  liftChecked (fun c => c.RecordNonceChange addr oldNonce newNonce) ctx

/-- `(*Context).RecordTrxPool` with its nil check. -/
def RecordTrxPoolO (ctx : Option Context) (eventType : String) (tx : Transaction)
    (sender : Option Address) : Res (Option Context) :=
  liftCheckedPure (fun c => c.RecordTrxPool eventType tx sender) ctx

/-! ### Reachable contexts

`Op` enumerates the public state-machine operations with their inputs;
a context is reachable when some sequence of successful operations leads to
it from a freshly constructed context. (`FlushTransaction` touches a second
context only through `Context.Reset`, which is covered by `Op.reset`.) -/

/-- One invocation of a public operation on a live context. -/
inductive Op where
  | initVersion (nodeVersion dmVersion variant : String)
  | startBlock (b : Block)
  | finalizeBlock (b : Block)
  | endBlock (b : Block) (td : Int)
  | cancelBlock (b : Block) (err : String)
  | startTransaction (tx : Transaction) (txIndex : Nat) (baseFee : Option Nat)
  | startTransactionRaw (hash : Hash256) (toAddr : Option Address) (value : Nat)
      (v r s : Bytes) (gasLimit gasPrice nonce : Nat) (data : Bytes)
      (accessList : AccessList) (txType txIndex : Nat)
  | recordTrxFrom (a : Address)
  | endTransaction (r : Receipt)
  | reset
  | startCall (ty : String)
  | recordCallParams (ty : String) (caller callee : Address) (value gasLimit : Nat)
      (input : Bytes)
  | recordCallWithoutCode
  | recordCallFailed (gasLeft : Nat) (reason : String)
  | recordCallReverted
  | endCall (gasLeft : Nat) (rv : Bytes)
  | endFailedCall (gasLeft : Nat) (reverted : Bool) (reason : String)
  | recordKeccak (h : Hash256) (data : Bytes)
  | recordGasRefund (gasOld gasRefund : Nat)
  | recordGasConsume (gasOld gasConsumed : Nat) (reason : GasChangeReason)
  | recordStorageChange (a : Address) (key oldData newData : Hash256)
  | recordBalanceChange (a : Address) (oldBalance newBalance : Int)
      (reason : BalanceChangeReason)
  | recordLog (l : LogItem)
  | recordSuicide (a : Address) (suicided : Bool) (balance : Int)
  | recordNewAccount (a : Address)
  | recordCodeChange (a : Address) (oldCodeHash oldCode : Bytes)
      (newCodeHash : Hash256) (newCode : Bytes)
  | recordNonceChange (a : Address) (oldNonce newNonce : Nat)
  | recordTrxPool (eventType : String) (tx : Transaction) (sender : Option Address)

/-- Apply one operation to a live context. -/
def Op.apply (ctx : Context) : Op → Res Context
  | .initVersion nv dv va => .ok (ctx.InitVersion nv dv va)
  | .startBlock b => ctx.StartBlock b
  | .finalizeBlock b => ctx.FinalizeBlock b
  | .endBlock b td => ctx.EndBlock b td
  | .cancelBlock b err => ctx.CancelBlock b err
  | .startTransaction tx i bf => ctx.StartTransaction tx i bf
  | .startTransactionRaw h t va v r s gl gp n d al ty i =>
      ctx.StartTransactionRaw h t va v r s gl gp n d al ty i
  | .recordTrxFrom a => ctx.RecordTrxFrom a
  | .endTransaction r => ctx.EndTransaction r
  | .reset => .ok ctx.Reset
  | .startCall ty => ctx.StartCall ty
  | .recordCallParams ty cr ce va gl inp => ctx.RecordCallParams ty cr ce va gl inp
  | .recordCallWithoutCode => ctx.RecordCallWithoutCode
  | .recordCallFailed g r => ctx.RecordCallFailed g r
  | .recordCallReverted => ctx.RecordCallReverted
  | .endCall g rv => ctx.EndCall g rv
  | .endFailedCall g rev r => ctx.EndFailedCall g rev r
  | .recordKeccak h d => ctx.RecordKeccak h d
  | .recordGasRefund go gr => ctx.RecordGasRefund go gr
  | .recordGasConsume go gc r => ctx.RecordGasConsume go gc r
  | .recordStorageChange a k o n => ctx.RecordStorageChange a k o n
  | .recordBalanceChange a ob nb r => ctx.RecordBalanceChange a ob nb r
  | .recordLog l => ctx.RecordLog l
  | .recordSuicide a s b => ctx.RecordSuicide a s b
  | .recordNewAccount a => ctx.RecordNewAccount a
  | .recordCodeChange a och oc nch nc => ctx.RecordCodeChange a och oc nch nc
  | .recordNonceChange a oldN newN => ctx.RecordNonceChange a oldN newN
  | .recordTrxPool ev tx sndr => .ok (ctx.RecordTrxPool ev tx sndr)

/-- Run a sequence of operations, stopping at the first fatal one. -/
def runOps (ctx : Context) : List Op → Res Context
  | [] => .ok ctx
  | op :: rest => do
      let c ← op.apply ctx
      runOps c rest

/-- A context is reachable when some successful operation sequence produces
it from a freshly constructed context. -/
def Reachable (c : Context) : Prop :=
  ∃ (p : Printer) (ops : List Op), runOps (NewContext p) ops = .ok c

/-! ## Claim theorems -/

/-- The block of the C1 scenario (block number 1). -/
def c1Block : Block :=
  { number := 1, size := 10, root := [], difficulty := 1,
    headerRepr := "header1", unclesRepr := "uncles1" }

/-- The transaction of the C1 scenario (hash `0xAA..`). -/
def c1Tx : Transaction :=
  { hash := 0xAA, toAddr := some 2, value := 0, v := [1], r := [2], s := [3],
    gas := 21000, gasPrice := 1, nonce := 0, data := [] }

/-- The receipt of the C1 scenario. -/
def c1Receipt : Receipt :=
  { gasUsed := 21000, postState := [], cumulativeGasUsed := 21000,
    bloom := [], logs := [] }

/-- The C1 call sequence on a freshly reset enabled context. -/
def c1Run : Res Context := do
  let ctx := NewContext (.delegateToWriter [])
  let ctx ← ctx.StartBlock c1Block
  let ctx ← ctx.StartTransaction c1Tx 0 none
  let ctx ← ctx.RecordTrxFrom 1
  let ctx ← ctx.StartCall "CALL"
  let ctx ← ctx.RecordStorageChange 5 1 0 7
  let ctx ← ctx.EndCall 21000 []
  let ctx ← ctx.EndTransaction c1Receipt
  ctx.EndBlock c1Block 100

/-- The block used by the C2 counterexample. -/
def c2Block : Block :=
  { number := 7, size := 1, root := [], difficulty := 1,
    headerRepr := "header7", unclesRepr := "uncles7" }

/-- A run in which a context enters a block while its total-ordering
counter is already 1 (a preceding `StartCall`, which needs no open
transaction or block, incremented it). -/
def c2CounterRun : Res Context := do
  let ctx := NewContext (.delegateToWriter [])
  let ctx ← ctx.StartCall "CALL"
  ctx.StartBlock c2Block

/-- The in-block context instantiating the C2 witness. -/
def c2WitnessCtx : Context :=
  { NewContext (.delegateToWriter []) with inBlock := true }

/-- The out-of-block context instantiating the C2 witness. -/
def c2WitnessCtx2 : Context := NewContext (.delegateToWriter [])

/-! ### The call-index-stack invariant -/

/-- The call-index stack is non-empty and its bottom element is the
transaction root index `"0"`. -/
def StackInv (c : Context) : Prop :=
  ∃ pre, c.callIndexStack = pre ++ ["0"]

/-- A sample block used to instantiate claims about nil contexts. -/
def sampleBlock : Block :=
  { number := 3, size := 2, root := [], difficulty := 1,
    headerRepr := "header3", unclesRepr := "uncles3" }

/-- A run opening and immediately ending a transaction. -/
def c4CounterRun : Res Context := do
  let ctx := NewContext (.delegateToWriter [])
  let ctx ← ctx.StartTransactionRaw 170 none 0 [] [] [] 21000 1 0 [] [] 0 0
  ctx.EndTransaction { gasUsed := 21000, postState := [], cumulativeGasUsed := 21000,
                       bloom := [], logs := [] }

/-- The operation list reaching the C4 witness context. -/
def c4WitnessOps : List Op :=
  [.startTransactionRaw 170 none 0 [] [] [] 21000 1 0 [] [] 0 0]

/-- A reachable context with an open transaction. -/
def c4WitnessCtx : Context :=
  (runOps (NewContext (.delegateToWriter [])) c4WitnessOps).toOption.getD
    (NewContext (.delegateToWriter []))

/-- A run reaching an open call inside an open transaction, then calling
`EndFailedCall(gasLeft = 5, reverted = true, reason)`. -/
def c5Run : Res Context := do
  let ctx := NewContext (.delegateToWriter [])
  let ctx ← ctx.StartTransactionRaw 170 none 0 [] [] [] 21000 1 0 [] [] 0 0
  let ctx ← ctx.StartCall "CALL"
  ctx.EndFailedCall 5 true "out of gas"

/-- A reachable context with an open transaction and one open call, used to
instantiate the C5 witness. -/
def c5WitnessCtx : Context :=
  ((do
    let ctx := NewContext (.delegateToWriter [])
    let ctx ← ctx.StartTransactionRaw 170 none 0 [] [] [] 21000 1 0 [] [] 0 0
    ctx.StartCall "CALL" : Res Context)).toOption.getD
      (NewContext (.delegateToWriter []))

/-- Modelled from the spec's words for C6: the manual failure sequence —
`RecordCallFailed(gasLeft, reason)`, then `RecordCallReverted()` if
reverted (otherwise `RecordGasConsume(gasLeft, gasLeft,
FailedExecutionGasChangeReason)`), then `EndCall` with a nil return value
and the corresponding gas-left value (the original `gasLeft` when
reverted, 0 otherwise). -/
def manualEndFailedCall (ctx : Context) (gasLeft : Nat) (reverted : Bool)
    (reason : String) : Res Context := do
  let ctx ← ctx.RecordCallFailed gasLeft reason
  if reverted then do
    let ctx ← ctx.RecordCallReverted
    ctx.EndCall gasLeft []
  else do
    let ctx ← ctx.RecordGasConsume gasLeft gasLeft FailedExecutionGasChangeReason
    ctx.EndCall 0 []

/-- A reachable context with an open transaction and one open call, used to
instantiate the C6 witness. -/
def c6WitnessCtx : Context :=
  ((do
    let ctx := NewContext (.delegateToWriter [])
    let ctx ← ctx.StartTransactionRaw 171 none 0 [] [] [] 21000 1 0 [] [] 0 0
    ctx.StartCall "CREATE" : Res Context)).toOption.getD
      (NewContext (.delegateToWriter []))

/-- A buffering context with three buffered lines and dirty scope state,
used to instantiate the C7 witness. -/
def c7WitnessTx : Context :=
  { printer := .toBuffer [⟨"BEGIN_APPLY_TRX", [.hash 170]⟩,
      ⟨"TRX_FROM", [.addr 1]⟩, ⟨"END_APPLY_TRX", [.u64 21000]⟩],
    seenBlock := true, inBlock := true, blockLogIndex := 4,
    totalOrderingCounter := 9, inTransaction := true, activeCallIndex := "2",
    nextCallIndex := 2, callIndexStack := ["2", "0"] }

/-- A context with an open transaction, used to instantiate the C8 and C9
witnesses. -/
def inTxWitnessCtx : Context :=
  { NewContext (.delegateToWriter []) with inTransaction := true }

/-! ## Basic lemmas about the state transformers -/

@[simp]
theorem print_output (ctx : Context) (l : Line) :
    (ctx.print l).output = ctx.output ++ [l] := by
  cases h : ctx.printer <;> simp [Context.print, Context.output, h]

theorem output_eq_lines (ctx : Context) : ctx.output = ctx.printer.lines := rfl

theorem lines_print (ctx : Context) (l : Line) :
    (ctx.print l).printer.lines = ctx.printer.lines ++ [l] := by
  cases h : ctx.printer <;> simp [Context.print, Printer.lines, h]

@[simp]
theorem print_seenBlock (ctx : Context) (l : Line) :
    (ctx.print l).seenBlock = ctx.seenBlock := rfl

@[simp]
theorem print_inBlock (ctx : Context) (l : Line) :
    (ctx.print l).inBlock = ctx.inBlock := rfl

@[simp]
theorem print_blockLogIndex (ctx : Context) (l : Line) :
    (ctx.print l).blockLogIndex = ctx.blockLogIndex := rfl

@[simp]
theorem print_totalOrderingCounter (ctx : Context) (l : Line) :
    (ctx.print l).totalOrderingCounter = ctx.totalOrderingCounter := rfl

@[simp]
theorem print_inTransaction (ctx : Context) (l : Line) :
    (ctx.print l).inTransaction = ctx.inTransaction := rfl

@[simp]
theorem print_activeCallIndex (ctx : Context) (l : Line) :
    (ctx.print l).activeCallIndex = ctx.activeCallIndex := rfl

@[simp]
theorem print_nextCallIndex (ctx : Context) (l : Line) :
    (ctx.print l).nextCallIndex = ctx.nextCallIndex := rfl

@[simp]
theorem print_callIndexStack (ctx : Context) (l : Line) :
    (ctx.print l).callIndexStack = ctx.callIndexStack := rfl

@[simp]
theorem incOrdering_fst (ctx : Context) :
    (ctx.incOrdering).fst = u64add ctx.totalOrderingCounter 1 := rfl

@[simp]
theorem incOrdering_snd_totalOrderingCounter (ctx : Context) :
    (ctx.incOrdering).snd.totalOrderingCounter = u64add ctx.totalOrderingCounter 1 := rfl

@[simp]
theorem incOrdering_snd_inBlock (ctx : Context) :
    (ctx.incOrdering).snd.inBlock = ctx.inBlock := rfl

@[simp]
theorem incOrdering_snd_inTransaction (ctx : Context) :
    (ctx.incOrdering).snd.inTransaction = ctx.inTransaction := rfl

@[simp]
theorem incOrdering_snd_activeCallIndex (ctx : Context) :
    (ctx.incOrdering).snd.activeCallIndex = ctx.activeCallIndex := rfl

@[simp]
theorem incOrdering_snd_callIndexStack (ctx : Context) :
    (ctx.incOrdering).snd.callIndexStack = ctx.callIndexStack := rfl

@[simp]
theorem incOrdering_snd_output (ctx : Context) :
    (ctx.incOrdering).snd.output = ctx.output := rfl

@[simp]
theorem incOrdering_snd_printer (ctx : Context) :
    (ctx.incOrdering).snd.printer = ctx.printer := rfl

@[simp]
theorem incOrdering_snd_nextCallIndex (ctx : Context) :
    (ctx.incOrdering).snd.nextCallIndex = ctx.nextCallIndex := rfl

@[simp]
theorem incOrdering_snd_blockLogIndex (ctx : Context) :
    (ctx.incOrdering).snd.blockLogIndex = ctx.blockLogIndex := rfl

@[simp]
theorem incOrdering_snd_seenBlock (ctx : Context) :
    (ctx.incOrdering).snd.seenBlock = ctx.seenBlock := rfl

@[simp]
theorem resetBlock_totalOrderingCounter (ctx : Context) :
    ctx.resetBlock.totalOrderingCounter = 0 := rfl

@[simp]
theorem resetBlock_inBlock (ctx : Context) : ctx.resetBlock.inBlock = false := rfl

@[simp]
theorem resetBlock_callIndexStack (ctx : Context) :
    ctx.resetBlock.callIndexStack = ctx.callIndexStack := rfl

@[simp]
theorem resetBlock_inTransaction (ctx : Context) :
    ctx.resetBlock.inTransaction = ctx.inTransaction := rfl

@[simp]
theorem resetBlock_output (ctx : Context) : ctx.resetBlock.output = ctx.output := rfl

@[simp]
theorem resetTransaction_callIndexStack (ctx : Context) :
    ctx.resetTransaction.callIndexStack = ["0"] := rfl

@[simp]
theorem resetTransaction_inTransaction (ctx : Context) :
    ctx.resetTransaction.inTransaction = false := rfl

@[simp]
theorem resetTransaction_totalOrderingCounter (ctx : Context) :
    ctx.resetTransaction.totalOrderingCounter = ctx.totalOrderingCounter := rfl

@[simp]
theorem resetTransaction_inBlock (ctx : Context) :
    ctx.resetTransaction.inBlock = ctx.inBlock := rfl

@[simp]
theorem resetTransaction_output (ctx : Context) :
    ctx.resetTransaction.output = ctx.output := rfl

@[simp]
theorem reset_totalOrderingCounter (ctx : Context) :
    ctx.Reset.totalOrderingCounter = 0 := rfl

@[simp]
theorem reset_callIndexStack (ctx : Context) : ctx.Reset.callIndexStack = ["0"] := rfl

/-- C1: starting from a freshly reset enabled context, the call sequence
`StartBlock(#1); StartTransaction(0xAA..); RecordTrxFrom(0x01);
StartCall("CALL"); RecordStorageChange(...); EndCall(21000, []);
EndTransaction(receipt); EndBlock(#1, td=100)` succeeds and emits exactly 8
lines to the printer, whose tags in order are `BEGIN_BLOCK,
BEGIN_APPLY_TRX, TRX_FROM, EVM_RUN_CALL, STORAGE_CHANGE, EVM_END_CALL,
END_APPLY_TRX, END_BLOCK`. -/
theorem c1_scenario_eight_lines :
    c1Run.map (fun c => (c.output.length, c.output.map Line.tag)) =
      .ok (8, ["BEGIN_BLOCK", "BEGIN_APPLY_TRX", "TRX_FROM", "EVM_RUN_CALL",
               "STORAGE_CHANGE", "EVM_END_CALL", "END_APPLY_TRX", "END_BLOCK"]) := by
  rfl

/-- C2, counterexample: the claim says `totalOrderingCounter` is reset to 0
exactly at block start. But `StartBlock` never touches the counter (only
`exitBlock`/`Reset` do): after `StartCall` (counter 1) followed by
`StartBlock`, the counter inside the freshly started block is still 1, and
the first ordering-sensitive event of that block (here a
`BEGIN_APPLY_TRX`) is stamped with sequence number 2, not 1. -/
theorem c2_counterexample :
    c2CounterRun.map Context.totalOrderingCounter = .ok 1 ∧
    (c2CounterRun >>= fun c =>
      c.StartTransactionRaw 170 none 0 [] [] [] 0 0 0 [] [] 0 0).map
        Context.totalOrderingCounter = .ok 2 := by
  constructor <;> rfl

/-- C2, amended: per increment call the counter (and the stamped sequence
number, which is the incremented value) grows by exactly 1; the counter is
reset to 0 when the block scope exits — by `EndBlock`, `CancelBlock` or
`Reset` — and NOT at `StartBlock`, which leaves it untouched; consequently,
when the counter is 0 on entry to `StartBlock` (as after a normally ended
block), the first ordering-sensitive event of the new block carries
sequence number 1. -/
theorem c2_amended (ctx ctx2 : Context) (blk : Block) (td : Int) (err : String)
    (hNoWrap : ctx.totalOrderingCounter + 1 < U64MOD)
    (hIn : ctx.inBlock = true) (hOut : ctx2.inBlock = false)
    (hZero : ctx2.totalOrderingCounter = 0) :
    (ctx.incOrdering).fst = ctx.totalOrderingCounter + 1 ∧
    (ctx.incOrdering).snd.totalOrderingCounter = ctx.totalOrderingCounter + 1 ∧
    (ctx.EndBlock blk td).map Context.totalOrderingCounter = .ok 0 ∧
    (ctx.CancelBlock blk err).map Context.totalOrderingCounter = .ok 0 ∧
    ctx.Reset.totalOrderingCounter = 0 ∧
    (ctx2.StartBlock blk).map Context.totalOrderingCounter =
      .ok ctx2.totalOrderingCounter ∧
    (ctx2.StartBlock blk).map (fun c => (c.incOrdering).fst) = .ok 1 := by
  have hinc : u64add ctx.totalOrderingCounter 1 = ctx.totalOrderingCounter + 1 := by
    simpa [u64add] using Nat.mod_eq_of_lt hNoWrap
  refine ⟨by simp [hinc], by simp [hinc], ?_, ?_, by simp, ?_, ?_⟩
  · simp [Context.EndBlock, Context.exitBlock, hIn, Except.map]
  · simp [Context.CancelBlock, Context.exitBlock, hIn, Except.map, Except.bind, bind]
  · simp [Context.StartBlock, hOut, Except.map]
  · simp [Context.StartBlock, hOut, Except.map, hZero, u64add, U64MOD]

/-- C2 witness: the amended theorem applied at concrete contexts — one
freshly constructed context placed in a block (counter 0), one freshly
constructed context outside a block. -/
theorem c2_amended_witness :
    (c2WitnessCtx.EndBlock c2Block 0).map Context.totalOrderingCounter = .ok 0 ∧
    (c2WitnessCtx2.StartBlock c2Block).map (fun c => (c.incOrdering).fst) = .ok 1 :=
  ⟨(c2_amended c2WitnessCtx c2WitnessCtx2 c2Block 0 "e" (by decide) rfl rfl rfl).2.2.1,
   (c2_amended c2WitnessCtx c2WitnessCtx2 c2Block 0 "e" (by decide) rfl rfl rfl).2.2.2.2.2.2⟩

theorem stackInv_newContext (p : Printer) : StackInv (NewContext p) :=
  ⟨[], rfl⟩

theorem stackInv_resetTransaction (c : Context) : StackInv c.resetTransaction :=
  ⟨[], rfl⟩

/-- Characterization of a successful `closeCall`. -/
theorem closeCall_ok {c c' : Context} {p : String}
    (h : c.closeCall = .ok (p, c')) :
    ∃ top rest2, c.callIndexStack = p :: top :: rest2 ∧
      c' = { c with callIndexStack := top :: rest2, activeCallIndex := top } := by
  unfold Context.closeCall at h
  cases hs : c.callIndexStack with
  | nil => rw [hs] at h; cases h
  | cons a rest =>
    rw [hs] at h
    cases rest with
    | nil => cases h
    | cons b rest2 =>
      refine ⟨b, rest2, ?_, ?_⟩
      · cases h; rfl
      · cases h; rfl

theorem closeCall_stackInv {c c' : Context} {p : String}
    (hInv : StackInv c) (h : c.closeCall = .ok (p, c')) : StackInv c' := by
  obtain ⟨top, rest2, hs, rfl⟩ := closeCall_ok h
  obtain ⟨pre, hpre⟩ := hInv
  rw [hs] at hpre
  cases pre with
  | nil => simp at hpre
  | cons a' pre' =>
    refine ⟨pre', ?_⟩
    simpa using congrArg List.tail hpre

theorem StartBlock_stack {c c' : Context} {b : Block}
    (h : c.StartBlock b = .ok c') : c'.callIndexStack = c.callIndexStack := by
  unfold Context.StartBlock at h
  split at h
  · cases h
  · cases h; rfl

theorem StartTransactionRaw_stack {c c' : Context} {h1 : Hash256} {t : Option Address}
    {va : Nat} {v r s : Bytes} {gl gp n : Nat} {d : Bytes} {al : AccessList}
    {ty i : Nat} (h : c.StartTransactionRaw h1 t va v r s gl gp n d al ty i = .ok c') :
    c'.callIndexStack = c.callIndexStack := by
  unfold Context.StartTransactionRaw at h
  split at h
  · cases h
  · cases h; rfl

theorem RecordTrxFrom_stack {c c' : Context} {a : Address}
    (h : c.RecordTrxFrom a = .ok c') : c'.callIndexStack = c.callIndexStack := by
  unfold Context.RecordTrxFrom at h
  split at h
  · cases h
  · cases h; rfl

theorem callIndex_ok {c : Context} {s : String} (h : c.callIndex = .ok s) :
    c.inTransaction = true ∧ s = c.activeCallIndex := by
  unfold Context.callIndex at h
  split at h
  · cases h
  · cases h
    refine ⟨?_, rfl⟩
    rename_i hb
    simpa using hb

theorem RecordCallParams_stack {c c' : Context} {ty : String} {cr ce : Address}
    {va gl : Nat} {inp : Bytes}
    (h : c.RecordCallParams ty cr ce va gl inp = .ok c') :
    c'.callIndexStack = c.callIndexStack := by
  unfold Context.RecordCallParams Context.callIndex at h
  by_cases hTx : c.inTransaction <;>
    simp [hTx, bind, Except.bind] at h <;> simp [← h]

theorem RecordCallWithoutCode_stack {c c' : Context}
    (h : c.RecordCallWithoutCode = .ok c') :
    c'.callIndexStack = c.callIndexStack := by
  unfold Context.RecordCallWithoutCode Context.callIndex at h
  by_cases hTx : c.inTransaction <;>
    simp [hTx, bind, Except.bind] at h <;> simp [← h]

theorem RecordCallFailed_stack {c c' : Context} {g : Nat} {r : String}
    (h : c.RecordCallFailed g r = .ok c') :
    c'.callIndexStack = c.callIndexStack := by
  unfold Context.RecordCallFailed Context.callIndex at h
  by_cases hTx : c.inTransaction <;>
    simp [hTx, bind, Except.bind] at h <;> simp [← h]

theorem RecordCallReverted_stack {c c' : Context}
    (h : c.RecordCallReverted = .ok c') :
    c'.callIndexStack = c.callIndexStack := by
  unfold Context.RecordCallReverted Context.callIndex at h
  by_cases hTx : c.inTransaction <;>
    simp [hTx, bind, Except.bind] at h <;> simp [← h]

theorem RecordKeccak_stack {c c' : Context} {hd : Hash256} {d : Bytes}
    (h : c.RecordKeccak hd d = .ok c') :
    c'.callIndexStack = c.callIndexStack := by
  unfold Context.RecordKeccak Context.callIndex at h
  by_cases hTx : c.inTransaction <;>
    simp [hTx, bind, Except.bind] at h <;> simp [← h]

theorem RecordGasRefund_stack {c c' : Context} {go gr : Nat}
    (h : c.RecordGasRefund go gr = .ok c') :
    c'.callIndexStack = c.callIndexStack := by
  unfold Context.RecordGasRefund Context.callIndex at h
  split at h
  · by_cases hTx : c.inTransaction <;>
      simp [hTx, bind, Except.bind] at h <;> simp [← h]
  · cases h; rfl

theorem RecordGasConsume_stack {c c' : Context} {go gc : Nat} {r : GasChangeReason}
    (h : c.RecordGasConsume go gc r = .ok c') :
    c'.callIndexStack = c.callIndexStack := by
  unfold Context.RecordGasConsume Context.callIndex at h
  split at h
  · by_cases hTx : c.inTransaction <;>
      simp [hTx, bind, Except.bind] at h <;> simp [← h]
  · cases h; rfl

theorem RecordStorageChange_stack {c c' : Context} {a : Address} {k o n : Hash256}
    (h : c.RecordStorageChange a k o n = .ok c') :
    c'.callIndexStack = c.callIndexStack := by
  unfold Context.RecordStorageChange Context.callIndex at h
  by_cases hTx : c.inTransaction <;>
    simp [hTx, bind, Except.bind] at h <;> simp [← h]

theorem RecordBalanceChange_stack {c c' : Context} {a : Address} {ob nb : Int}
    {r : BalanceChangeReason}
    (h : c.RecordBalanceChange a ob nb r = .ok c') :
    c'.callIndexStack = c.callIndexStack := by
  unfold Context.RecordBalanceChange Context.callIndex at h
  split at h
  · by_cases hTx : c.inTransaction <;>
      simp [hTx, bind, Except.bind] at h <;> simp [← h]
  · cases h; rfl

theorem RecordLog_stack {c c' : Context} {l : LogItem}
    (h : c.RecordLog l = .ok c') :
    c'.callIndexStack = c.callIndexStack := by
  unfold Context.RecordLog Context.callIndex at h
  by_cases hTx : c.inTransaction <;>
    simp [hTx, bind, Except.bind, Context.logIndexInBlock] at h <;> simp [← h]

theorem RecordSuicide_stack {c c' : Context} {a : Address} {su : Bool} {b : Int}
    (h : c.RecordSuicide a su b = .ok c') :
    c'.callIndexStack = c.callIndexStack := by
  unfold Context.RecordSuicide Context.callIndex at h
  by_cases hTx : c.inTransaction <;>
    simp [hTx, bind, Except.bind] at h
  split at h <;>
    first
      | (rw [RecordBalanceChange_stack h]; simp)
      | (simp only [Except.ok.injEq] at h; simp [← h])

theorem RecordNewAccount_stack {c c' : Context} {a : Address}
    (h : c.RecordNewAccount a = .ok c') :
    c'.callIndexStack = c.callIndexStack := by
  unfold Context.RecordNewAccount Context.callIndex at h
  by_cases hTx : c.inTransaction <;>
    simp [hTx, bind, Except.bind] at h <;> simp [← h]

theorem RecordCodeChange_stack {c c' : Context} {a : Address} {och oc : Bytes}
    {nch : Hash256} {nc : Bytes}
    (h : c.RecordCodeChange a och oc nch nc = .ok c') :
    c'.callIndexStack = c.callIndexStack := by
  unfold Context.RecordCodeChange Context.callIndex at h
  by_cases hTx : c.inTransaction <;>
    simp [hTx, bind, Except.bind] at h <;> simp [← h]

theorem RecordNonceChange_stack {c c' : Context} {a : Address} {o1 n1 : Nat}
    (h : c.RecordNonceChange a o1 n1 = .ok c') :
    c'.callIndexStack = c.callIndexStack := by
  unfold Context.RecordNonceChange Context.callIndex at h
  by_cases hTx : c.inTransaction <;>
    simp [hTx, bind, Except.bind] at h <;> simp [← h]

theorem EndTransaction_stack {c c' : Context} {r : Receipt}
    (h : c.EndTransaction r = .ok c') : c'.callIndexStack = ["0"] := by
  unfold Context.EndTransaction at h
  split at h
  · cases h
  · cases h; rfl

theorem EndBlock_stack {c c' : Context} {b : Block} {td : Int}
    (h : c.EndBlock b td = .ok c') : c'.callIndexStack = ["0"] := by
  simp only [Context.EndBlock, Context.exitBlock] at h
  split at h
  · cases h
  · cases h; rfl

theorem CancelBlock_stack {c c' : Context} {b : Block} {e : String}
    (h : c.CancelBlock b e = .ok c') :
    c'.callIndexStack = ["0"] ∨ c'.callIndexStack = c.callIndexStack := by
  unfold Context.CancelBlock Context.exitBlock at h
  by_cases hib : c.inBlock <;> simp [hib, bind, Except.bind] at h
  · left; simp [← h]
  · right; simp [← h]

theorem StartCall_stack {c c' : Context} {ty : String}
    (h : c.StartCall ty = .ok c') :
    c'.callIndexStack =
      toString (u64add c.nextCallIndex 1) :: c.callIndexStack := by
  unfold Context.StartCall Context.openCall at h
  cases h; rfl

theorem EndCall_stackInv {c c' : Context} {g : Nat} {rv : Bytes}
    (hInv : StackInv c) (h : c.EndCall g rv = .ok c') : StackInv c' := by
  unfold Context.EndCall at h
  cases hcc : c.closeCall with
  | error e => simp [hcc, bind, Except.bind] at h
  | ok pc =>
    obtain ⟨p, c1⟩ := pc
    have h1 : StackInv c1 := closeCall_stackInv hInv hcc
    simp [hcc, bind, Except.bind] at h
    obtain ⟨pre, hpre⟩ := h1
    exact ⟨pre, by simp [← h, hpre]⟩

theorem EndFailedCall_stackInv {c c' : Context} {g : Nat} {rev : Bool} {r : String}
    (hInv : StackInv c) (h : c.EndFailedCall g rev r = .ok c') : StackInv c' := by
  unfold Context.EndFailedCall at h
  cases h1 : c.RecordCallFailed g r with
  | error e => simp [h1, bind, Except.bind] at h
  | ok c1 =>
    have hs1 : StackInv c1 := by
      obtain ⟨pre, hpre⟩ := hInv
      exact ⟨pre, by rw [RecordCallFailed_stack h1, hpre]⟩
    simp only [h1, bind, Except.bind] at h
    cases rev <;> simp only [Bool.false_eq_true, if_true, if_false, cond] at h
    · cases h2 : c1.RecordGasConsume g g FailedExecutionGasChangeReason with
      | error e => simp [h2, bind, Except.bind] at h
      | ok c2 =>
        have hs2 : StackInv c2 := by
          obtain ⟨pre, hpre⟩ := hs1
          exact ⟨pre, by rw [RecordGasConsume_stack h2, hpre]⟩
        simp only [h2, bind, Except.bind, pure, Except.pure] at h
        cases h3 : c2.closeCall with
        | error e => simp [h3, bind, Except.bind] at h
        | ok pc =>
          obtain ⟨p, c3⟩ := pc
          have hs3 : StackInv c3 := closeCall_stackInv hs2 h3
          simp [h3, bind, Except.bind] at h
          obtain ⟨pre, hpre⟩ := hs3
          exact ⟨pre, by simp [← h, hpre]⟩
    · cases h2 : c1.RecordCallReverted with
      | error e => simp [h2, bind, Except.bind] at h
      | ok c2 =>
        have hs2 : StackInv c2 := by
          obtain ⟨pre, hpre⟩ := hs1
          exact ⟨pre, by rw [RecordCallReverted_stack h2, hpre]⟩
        simp only [h2, bind, Except.bind, pure, Except.pure] at h
        cases h3 : c2.closeCall with
        | error e => simp [h3, bind, Except.bind] at h
        | ok pc =>
          obtain ⟨p, c3⟩ := pc
          have hs3 : StackInv c3 := closeCall_stackInv hs2 h3
          simp [h3, bind, Except.bind] at h
          obtain ⟨pre, hpre⟩ := hs3
          exact ⟨pre, by simp [← h, hpre]⟩

/-- Every public operation preserves the call-index-stack invariant. -/
theorem apply_stackInv {c c' : Context} {op : Op}
    (hInv : StackInv c) (h : op.apply c = .ok c') : StackInv c' := by
  obtain ⟨pre, hpre⟩ := hInv
  cases op with
  | initVersion nv dv va =>
    cases h; exact ⟨pre, by simpa [Context.InitVersion] using hpre⟩
  | startBlock b => exact ⟨pre, by rw [StartBlock_stack h, hpre]⟩
  | finalizeBlock b =>
    cases h; exact ⟨pre, by simpa [Context.FinalizeBlock] using hpre⟩
  | endBlock b td => exact ⟨[], EndBlock_stack h⟩
  | cancelBlock b e =>
    rcases CancelBlock_stack h with h' | h'
    · exact ⟨[], h'⟩
    · exact ⟨pre, by rw [h', hpre]⟩
  | startTransaction tx i bf =>
    exact ⟨pre, by rw [StartTransactionRaw_stack h, hpre]⟩
  | startTransactionRaw h1 t va v r s gl gp n d al ty i =>
    exact ⟨pre, by rw [StartTransactionRaw_stack h, hpre]⟩
  | recordTrxFrom a => exact ⟨pre, by rw [RecordTrxFrom_stack h, hpre]⟩
  | endTransaction r => exact ⟨[], EndTransaction_stack h⟩
  | reset => cases h; exact ⟨[], rfl⟩
  | startCall ty =>
    exact ⟨toString (u64add c.nextCallIndex 1) :: pre, by
      rw [StartCall_stack h, hpre]; rfl⟩
  | recordCallParams ty cr ce va gl inp =>
    exact ⟨pre, by rw [RecordCallParams_stack h, hpre]⟩
  | recordCallWithoutCode => exact ⟨pre, by rw [RecordCallWithoutCode_stack h, hpre]⟩
  | recordCallFailed g r => exact ⟨pre, by rw [RecordCallFailed_stack h, hpre]⟩
  | recordCallReverted => exact ⟨pre, by rw [RecordCallReverted_stack h, hpre]⟩
  | endCall g rv => exact EndCall_stackInv ⟨pre, hpre⟩ h
  | endFailedCall g rev r => exact EndFailedCall_stackInv ⟨pre, hpre⟩ h
  | recordKeccak hd d => exact ⟨pre, by rw [RecordKeccak_stack h, hpre]⟩
  | recordGasRefund go gr => exact ⟨pre, by rw [RecordGasRefund_stack h, hpre]⟩
  | recordGasConsume go gc r => exact ⟨pre, by rw [RecordGasConsume_stack h, hpre]⟩
  | recordStorageChange a k o n => exact ⟨pre, by rw [RecordStorageChange_stack h, hpre]⟩
  | recordBalanceChange a ob nb r => exact ⟨pre, by rw [RecordBalanceChange_stack h, hpre]⟩
  | recordLog l => exact ⟨pre, by rw [RecordLog_stack h, hpre]⟩
  | recordSuicide a su b => exact ⟨pre, by rw [RecordSuicide_stack h, hpre]⟩
  | recordNewAccount a => exact ⟨pre, by rw [RecordNewAccount_stack h, hpre]⟩
  | recordCodeChange a och oc nch nc => exact ⟨pre, by rw [RecordCodeChange_stack h, hpre]⟩
  | recordNonceChange a o1 n1 => exact ⟨pre, by rw [RecordNonceChange_stack h, hpre]⟩
  | recordTrxPool ev tx sndr =>
    cases h; exact ⟨pre, by simpa [Context.RecordTrxPool] using hpre⟩

theorem runOps_stackInv {c c' : Context} {ops : List Op}
    (hInv : StackInv c) (h : runOps c ops = .ok c') : StackInv c' := by
  induction ops generalizing c with
  | nil => cases h; exact hInv
  | cons op rest ih =>
    unfold runOps at h
    cases happ : op.apply c with
    | error e => simp [happ, bind, Except.bind] at h
    | ok c1 =>
      simp only [happ, bind, Except.bind] at h
      exact ih (apply_stackInv hInv happ) h

/-- Every reachable context satisfies the call-index-stack invariant. -/
theorem reachable_stackInv {c : Context} (hReach : Reachable c) : StackInv c := by
  obtain ⟨p, ops, h⟩ := hReach
  exact runOps_stackInv (stackInv_newContext p) h

/-- C3, counterexample: the claim says every public recording operation —
including `StartBlock`, `FinalizeBlock` and `EndBlock` — checks for an
absent (nil) context first and returns as a silent no-op. But those three
methods have no nil check in the source: each dereferences the receiver
(`ctx.inBlock.CAS`, `ctx.printer.Print`) and a call on a nil context is a
nil-pointer panic, not a no-op. -/
theorem c3_counterexample :
    StartBlockO none sampleBlock = .error .nilPointerDereference ∧
    FinalizeBlockO none sampleBlock = .error .nilPointerDereference ∧
    EndBlockO none sampleBlock 100 = .error .nilPointerDereference :=
  ⟨rfl, rfl, rfl⟩

/-- C3, amended: every public operation of the Trace Context EXCEPT
`StartBlock`, `FinalizeBlock` and `EndBlock` performs the absent-context
check first and is a silent no-op on a nil context — it returns
immediately, emits nothing, changes no state and does not panic, for any
input; `StartBlock`, `FinalizeBlock` and `EndBlock` instead dereference the
nil context and fail with a nil-pointer panic. -/
theorem c3_amended (nodeVersion dmVersion variant : String) (blk : Block)
    (alloc : Context → Res Context) (err : String) (tx : Transaction)
    (txIndex : Nat) (baseFee : Option Nat) (hash1 : Hash256) (toA : Option Address)
    (value : Nat) (v r s : Bytes) (gasLimit gasPrice nonce : Nat) (data : Bytes)
    (al : AccessList) (txType txIdx : Nat) (a : Address) (receipt : Receipt)
    (callType : String) (caller callee : Address) (gl : Nat) (input : Bytes)
    (gasLeft : Nat) (reason : String) (rv : Bytes) (reverted : Bool)
    (hashOfData : Hash256) (gasOld gasRefund gasConsumed : Nat)
    (greason : GasChangeReason) (key oldData newData : Hash256) (ob nb : Int)
    (breason : BalanceChangeReason) (log : LogItem) (suicided : Bool) (bal : Int)
    (och oc : Bytes) (nch : Hash256) (nc : Bytes) (oldNonce newNonce : Nat)
    (eventType : String) (sender : Option Address) (td : Int)
    (stdout : List Line) (t : Context) :
    InitVersionO none nodeVersion dmVersion variant = .ok none ∧
    RecordGenesisBlockO none blk alloc = .ok none ∧
    CancelBlockO none blk err = .ok none ∧
    StartTransactionO none tx txIndex baseFee = .ok none ∧
    StartTransactionRawO none hash1 toA value v r s gasLimit gasPrice nonce data
      al txType txIdx = .ok none ∧
    RecordTrxFromO none a = .ok none ∧
    ResetO none = .ok none ∧
    EndTransactionO none receipt = .ok none ∧
    StartCallO none callType = .ok none ∧
    RecordCallParamsO none callType caller callee value gl input = .ok none ∧
    RecordCallWithoutCodeO none = .ok none ∧
    RecordCallFailedO none gasLeft reason = .ok none ∧
    RecordCallRevertedO none = .ok none ∧
    EndCallO none gasLeft rv = .ok none ∧
    EndFailedCallO none gasLeft reverted reason = .ok none ∧
    RecordKeccakO none hashOfData data = .ok none ∧
    RecordGasRefundO none gasOld gasRefund = .ok none ∧
    RecordGasConsumeO none gasOld gasConsumed greason = .ok none ∧
    RecordStorageChangeO none a key oldData newData = .ok none ∧
    RecordBalanceChangeO none a ob nb breason = .ok none ∧
    RecordLogO none log = .ok none ∧
    RecordSuicideO none a suicided bal = .ok none ∧
    RecordNewAccountO none a = .ok none ∧
    RecordCodeChangeO none a och oc nch nc = .ok none ∧
    RecordNonceChangeO none a oldNonce newNonce = .ok none ∧
    RecordTrxPoolO none eventType tx sender = .ok none ∧
    FlushTransaction stdout none (some t) = (stdout, none, some t) ∧
    FlushTransaction stdout none none = (stdout, none, none) ∧
    StartBlockO none blk = .error .nilPointerDereference ∧
    FinalizeBlockO none blk = .error .nilPointerDereference ∧
    EndBlockO none blk td = .error .nilPointerDereference :=
  ⟨rfl, rfl, rfl, rfl, rfl, rfl, rfl, rfl, rfl, rfl, rfl, rfl, rfl, rfl, rfl,
   rfl, rfl, rfl, rfl, rfl, rfl, rfl, rfl, rfl, rfl, rfl, rfl, rfl, rfl, rfl, rfl⟩

/-- C4, counterexample: the claim says the call-index stack has depth 0
immediately after `EndTransaction` or `Reset`. But `resetTransaction`
re-creates the stack and pushes the root index `"0"`, so the depth
immediately after either operation is 1 (the stack is exactly `["0"]`),
not 0. -/
theorem c4_counterexample :
    c4CounterRun.map (fun c => c.callIndexStack.length) = .ok 1 ∧
    (NewContext (.delegateToWriter [])).Reset.callIndexStack.length = 1 := by
  constructor <;> rfl

/-- C4, amended: for every reachable context with an open transaction the
call-index stack has depth ≥ 1 with bottom element `"0"`; and immediately
after a successful `EndTransaction` or after `Reset` the stack is exactly
`["0"]` — the root alone, depth 1 (not 0). -/
theorem c4_amended (c : Context) (hReach : Reachable c)
    (hTx : c.inTransaction = true) :
    (1 ≤ c.callIndexStack.length ∧ c.callIndexStack.getLast? = some "0") ∧
    (∀ r c', c.EndTransaction r = .ok c' →
      c'.callIndexStack = ["0"] ∧ c'.callIndexStack.length = 1) ∧
    (c.Reset.callIndexStack = ["0"] ∧ c.Reset.callIndexStack.length = 1) := by
  obtain ⟨pre, hpre⟩ := reachable_stackInv hReach
  refine ⟨⟨?_, ?_⟩, ?_, by simp⟩
  · rw [hpre]; simp
  · rw [hpre]; simp
  · intro r c' h
    exact ⟨EndTransaction_stack h, by rw [EndTransaction_stack h]; rfl⟩

/-- C4 witness: the amended theorem applied at a concrete reachable context
whose transaction is open. -/
theorem c4_amended_witness :
    (1 ≤ c4WitnessCtx.callIndexStack.length ∧
      c4WitnessCtx.callIndexStack.getLast? = some "0") ∧
    c4WitnessCtx.Reset.callIndexStack = ["0"] :=
  ⟨(c4_amended c4WitnessCtx ⟨.delegateToWriter [], c4WitnessOps, rfl⟩ rfl).1,
   (c4_amended c4WitnessCtx ⟨.delegateToWriter [], c4WitnessOps, rfl⟩ rfl).2.2.1⟩

/-- C5, counterexample: the claim says `EndFailedCall(gasLeft, true,
reason)` still zeroes `gasLeft` so the `EVM_END_CALL` line reports 0. But
the source zeroes `gasLeft` only on the NON-reverted branch; with
`reverted = true` the `EVM_END_CALL` line carries the original `gasLeft`
(here 5, in field position 1). -/
theorem c5_counterexample :
    c5Run.map (fun c => c.output.map Line.tag) =
      .ok ["BEGIN_APPLY_TRX", "EVM_RUN_CALL", "EVM_CALL_FAILED",
           "EVM_REVERTED", "EVM_END_CALL"] ∧
    c5Run.map (fun c => c.output.getLast?.map Line.fields) =
      .ok (some [.str "1", .u64 5, .hex [], .u64 3]) ∧
    Field.u64 5 ≠ Field.u64 0 := by
  refine ⟨rfl, rfl, by decide⟩

/-- C5, amended: for every context with an open transaction and an open
call, `EndFailedCall(gasLeft, true, reason)` suppresses the
gas-consumption event — it emits exactly `EVM_CALL_FAILED` then
`EVM_REVERTED` then `EVM_END_CALL`, with no `GAS_CHANGE` line — and the
`EVM_END_CALL` line reports the ORIGINAL `gasLeft` value; the zeroing of
`gasLeft` happens only on the non-reverted branch. -/
theorem c5_amended (ctx : Context) (gasLeft : Nat) (reason : String)
    (a top : String) (rest : List String)
    (hTx : ctx.inTransaction = true)
    (hStack : ctx.callIndexStack = a :: top :: rest) :
    (ctx.EndFailedCall gasLeft true reason).map (fun c => c.output.map Line.tag) =
      .ok (ctx.output.map Line.tag ++
        ["EVM_CALL_FAILED", "EVM_REVERTED", "EVM_END_CALL"]) ∧
    (ctx.EndFailedCall gasLeft true reason).map (fun c => c.output.getLast?) =
      .ok (some ⟨"EVM_END_CALL",
        [.str a, .u64 gasLeft, .hex [], .u64 (u64add ctx.totalOrderingCounter 1)]⟩) := by
  constructor <;>
    simp [Context.EndFailedCall, Context.RecordCallFailed, Context.RecordCallReverted,
      Context.callIndex, Context.closeCall, hTx, hStack, bind, Except.bind,
      Except.map, pure, Except.pure, output_eq_lines, lines_print]

/-- C5 witness: the amended theorem applied at a concrete context with an
open transaction and an open call. -/
theorem c5_amended_witness :
    (c5WitnessCtx.EndFailedCall 5 true "oops").map (fun c => c.output.map Line.tag) =
      .ok (c5WitnessCtx.output.map Line.tag ++
        ["EVM_CALL_FAILED", "EVM_REVERTED", "EVM_END_CALL"]) :=
  (c5_amended c5WitnessCtx 5 "oops" "1" "0" [] rfl rfl).1

/-- C6: for every context with an open transaction and an open call, and
every `gasLeft`, `reverted` flag and `reason`, `EndFailedCall` produces a
result — and in particular byte-identical printer output — equal to
manually calling `RecordCallFailed`, then `RecordCallReverted` if reverted
(otherwise `RecordGasConsume(gasLeft, gasLeft,
FailedExecutionGasChangeReason)`), then `EndCall` with a nil return value
and the corresponding gas-left value. -/
theorem c6_endFailedCall_equiv (ctx : Context) (gasLeft : Nat) (reverted : Bool)
    (reason : String) (hTx : ctx.inTransaction = true)
    (hStack : 2 ≤ ctx.callIndexStack.length) :
    ctx.EndFailedCall gasLeft reverted reason =
      manualEndFailedCall ctx gasLeft reverted reason := by
  cases reverted with
  | false =>
    unfold Context.EndFailedCall manualEndFailedCall
    cases h1 : ctx.RecordCallFailed gasLeft reason with
    | error e => simp [h1, bind, Except.bind]
    | ok c1 =>
      simp only [h1, bind, Except.bind, Bool.false_eq_true, if_false, pure, Except.pure]
      cases h2 : c1.RecordGasConsume gasLeft gasLeft FailedExecutionGasChangeReason with
      | error e => simp [h2, bind, Except.bind]
      | ok c2 => simp [h2, bind, Except.bind, Context.EndCall]
  | true =>
    unfold Context.EndFailedCall manualEndFailedCall
    cases h1 : ctx.RecordCallFailed gasLeft reason with
    | error e => simp [h1, bind, Except.bind]
    | ok c1 =>
      simp only [h1, bind, Except.bind, if_true, pure, Except.pure]
      cases h2 : c1.RecordCallReverted with
      | error e => simp [h2, bind, Except.bind]
      | ok c2 => simp [h2, bind, Except.bind, Context.EndCall]

/-- C6 witness: the equivalence applied at a concrete context with an open
transaction and an open call, in the non-reverted case. -/
theorem c6_endFailedCall_equiv_witness :
    c6WitnessCtx.EndFailedCall 7 false "oops" =
      manualEndFailedCall c6WitnessCtx 7 false "oops" :=
  c6_endFailedCall_equiv c6WitnessCtx 7 false "oops" rfl (by decide)

/-- C7: flushing a buffering context `t` into the sync context's direct
sink (the process stdout stream, to which `FlushTransaction` writes)
appends `t`'s accumulated buffer byte-for-byte to that sink, and leaves `t`
with an empty buffer and all its scope counters and flags (`inBlock`,
`inTransaction`, `blockLogIndex`, `totalOrderingCounter`, `nextCallIndex`,
`activeCallIndex`, call-index stack) at their initial reset values
(`seenBlock` is global state and is not touched). -/
theorem c7_flushTransaction (stdout : List Line) (d t : Context) (buf : List Line)
    (h : t.printer = .toBuffer buf) :
    FlushTransaction stdout (some d) (some t) =
      (stdout ++ buf, some d, some
        { printer := .toBuffer [], seenBlock := t.seenBlock, inBlock := false,
          blockLogIndex := 0, totalOrderingCounter := 0, inTransaction := false,
          activeCallIndex := "0", nextCallIndex := 0, callIndexStack := ["0"] }) := by
  cases t with
  | mk printer sb ib bli toc itx aci nci cis =>
    cases h
    rfl

/-- C7 witness: the flush theorem applied at a concrete buffering context
with non-trivial buffer and counters. -/
theorem c7_flushTransaction_witness :
    FlushTransaction [] (some (NewContext (.delegateToWriter []))) (some c7WitnessTx) =
      ([⟨"BEGIN_APPLY_TRX", [.hash 170]⟩, ⟨"TRX_FROM", [.addr 1]⟩,
        ⟨"END_APPLY_TRX", [.u64 21000]⟩],
       some (NewContext (.delegateToWriter [])), some
        { printer := .toBuffer [], seenBlock := true, inBlock := false,
          blockLogIndex := 0, totalOrderingCounter := 0, inTransaction := false,
          activeCallIndex := "0", nextCallIndex := 0, callIndexStack := ["0"] }) :=
  c7_flushTransaction [] (NewContext (.delegateToWriter [])) c7WitnessTx _ rfl

/-- C8: for every context with an open transaction, `RecordGasConsume(gasOld,
gasConsumed, reason)` emits no line when `gasConsumed = 0` or when `reason`
is the ignored reason tag (the context is returned unchanged); for any
other combination it emits exactly one `GAS_CHANGE` line whose new-gas
field is the `uint64` difference `gasOld - gasConsumed` — which equals the
plain difference whenever `gasConsumed ≤ gasOld < 2^64`. -/
theorem c8_recordGasConsume (ctx : Context) (gasOld gasConsumed : Nat)
    (reason : GasChangeReason) (hTx : ctx.inTransaction = true) :
    (gasConsumed = 0 ∨ reason = IgnoredGasChangeReason →
      ctx.RecordGasConsume gasOld gasConsumed reason = .ok ctx) ∧
    (gasConsumed ≠ 0 → reason ≠ IgnoredGasChangeReason →
      (ctx.RecordGasConsume gasOld gasConsumed reason).map Context.output =
        .ok (ctx.output ++ [⟨"GAS_CHANGE",
          [.str ctx.activeCallIndex, .u64 gasOld, .u64 (u64sub gasOld gasConsumed),
           .str reason, .u64 (u64add ctx.totalOrderingCounter 1)]⟩])) ∧
    (gasConsumed ≤ gasOld → gasOld < U64MOD →
      u64sub gasOld gasConsumed = gasOld - gasConsumed) := by
  refine ⟨?_, ?_, ?_⟩
  · intro h
    rcases h with h | h <;> simp [Context.RecordGasConsume, h]
  · intro h1 h2
    simp [Context.RecordGasConsume, h1, h2, Context.callIndex, hTx, bind,
      Except.bind, Except.map]
  · intro h1 h2
    have hc : gasConsumed < U64MOD := lt_of_le_of_lt h1 h2
    unfold u64sub
    rw [Nat.mod_eq_of_lt hc]
    have hsplit : gasOld + (U64MOD - gasConsumed) = gasOld - gasConsumed + U64MOD := by
      omega
    rw [hsplit, Nat.add_mod_right, Nat.mod_eq_of_lt (by omega)]

/-- C8 witness: the theorem applied at a concrete open-transaction context,
with consumed gas 3 out of 10 and a non-ignored reason, and at consumed gas
0. -/
theorem c8_recordGasConsume_witness :
    inTxWitnessCtx.RecordGasConsume 10 0 "call" = .ok inTxWitnessCtx ∧
    (inTxWitnessCtx.RecordGasConsume 10 3 "call").map Context.output =
      .ok (inTxWitnessCtx.output ++ [⟨"GAS_CHANGE",
        [.str inTxWitnessCtx.activeCallIndex, .u64 10, .u64 (u64sub 10 3),
         .str "call", .u64 (u64add inTxWitnessCtx.totalOrderingCounter 1)]⟩]) ∧
    u64sub 10 3 = 10 - 3 :=
  ⟨(c8_recordGasConsume inTxWitnessCtx 10 0 "call" rfl).1 (Or.inl rfl),
   (c8_recordGasConsume inTxWitnessCtx 10 3 "call" rfl).2.1 (by decide) (by decide),
   (c8_recordGasConsume inTxWitnessCtx 10 3 "call" rfl).2.2 (by decide) (by decide)⟩

/-- C9: for every context with an open transaction, `RecordSuicide(addr,
true, balance)` with `balance ≠ 0` emits exactly two lines — one
`SUICIDE_CHANGE` followed by one synthesized `BALANCE_CHANGE` (reason
`suicide_withdraw`) reducing the account's balance from `balance` to zero —
and with `balance = 0` it emits exactly one line, the `SUICIDE_CHANGE`
alone. -/
theorem c9_recordSuicide (ctx : Context) (addr : Address) (balance : Int)
    (hTx : ctx.inTransaction = true) :
    (balance ≠ 0 →
      (ctx.RecordSuicide addr true balance).map Context.output =
        .ok (ctx.output ++
          [⟨"SUICIDE_CHANGE",
            [.str ctx.activeCallIndex, .addr addr, .bool true, .bigInt balance]⟩,
           ⟨"BALANCE_CHANGE",
            [.str ctx.activeCallIndex, .addr addr, .bigInt balance, .bigInt 0,
             .str "suicide_withdraw", .u64 (u64add ctx.totalOrderingCounter 1)]⟩])) ∧
    (balance = 0 →
      (ctx.RecordSuicide addr true balance).map Context.output =
        .ok (ctx.output ++
          [⟨"SUICIDE_CHANGE",
            [.str ctx.activeCallIndex, .addr addr, .bool true, .bigInt 0]⟩])) := by
  have hr : ("suicide_withdraw" : BalanceChangeReason) ≠ IgnoredBalanceChangeReason := by
    decide
  constructor
  · intro hb
    simp [Context.RecordSuicide, Context.RecordBalanceChange, Context.callIndex,
      hTx, hb, hr, bind, Except.bind, Except.map, output_eq_lines, lines_print]
  · intro hb
    subst hb
    simp [Context.RecordSuicide, Context.callIndex, hTx, bind, Except.bind,
      Except.map, output_eq_lines, lines_print]

/-- C9 witness: the theorem applied at a concrete open-transaction context,
once with balance 5 and once with balance 0. -/
theorem c9_recordSuicide_witness :
    (inTxWitnessCtx.RecordSuicide 2 true 5).map Context.output =
      .ok (inTxWitnessCtx.output ++
        [⟨"SUICIDE_CHANGE",
          [.str inTxWitnessCtx.activeCallIndex, .addr 2, .bool true, .bigInt 5]⟩,
         ⟨"BALANCE_CHANGE",
          [.str inTxWitnessCtx.activeCallIndex, .addr 2, .bigInt 5, .bigInt 0,
           .str "suicide_withdraw",
           .u64 (u64add inTxWitnessCtx.totalOrderingCounter 1)]⟩]) ∧
    (inTxWitnessCtx.RecordSuicide 2 true 0).map Context.output =
      .ok (inTxWitnessCtx.output ++
        [⟨"SUICIDE_CHANGE",
          [.str inTxWitnessCtx.activeCallIndex, .addr 2, .bool true, .bigInt 0]⟩]) :=
  ⟨(c9_recordSuicide inTxWitnessCtx 2 5 rfl).1 (by decide),
   (c9_recordSuicide inTxWitnessCtx 2 0 rfl).2 rfl⟩

/-- C10: `StartCall` invoked while no transaction is open does not fail:
it unconditionally increments `nextCallIndex`, pushes the new index as the
active call index, and emits an `EVM_RUN_CALL` line carrying a fresh
ordering sequence number — even outside any transaction scope. By
contrast, the `Record*` operations reach the active-call-index lookup
(`callIndex`), which panics when `inTransaction` is false. -/
theorem c10_startCall (ctx : Context) (ty : String)
    (hTx : ctx.inTransaction = false) :
    (ctx.StartCall ty).map (fun c =>
        (c.nextCallIndex, c.activeCallIndex, c.callIndexStack, c.output)) =
      .ok (u64add ctx.nextCallIndex 1,
           toString (u64add ctx.nextCallIndex 1),
           toString (u64add ctx.nextCallIndex 1) :: ctx.callIndexStack,
           ctx.output ++ [⟨"EVM_RUN_CALL",
             [.str ty, .str (toString (u64add ctx.nextCallIndex 1)),
              .u64 (u64add ctx.totalOrderingCounter 1)]⟩]) ∧
    (∀ a k o n, ctx.RecordStorageChange a k o n =
      .error (.goPanic
        "should have been call in a transaction, something is deeply wrong")) ∧
    (∀ g r, ctx.RecordCallFailed g r =
      .error (.goPanic
        "should have been call in a transaction, something is deeply wrong")) := by
  refine ⟨?_, ?_, ?_⟩
  · simp [Context.StartCall, Context.openCall, Except.map, output_eq_lines, lines_print]
  · intro a k o n
    simp [Context.RecordStorageChange, Context.callIndex, hTx, bind, Except.bind]
  · intro g r
    simp [Context.RecordCallFailed, Context.callIndex, hTx, bind, Except.bind]

/-- C10 witness: the theorem applied at a freshly constructed context
(no transaction open). -/
theorem c10_startCall_witness :
    ((NewContext (.delegateToWriter [])).StartCall "CALL").map (fun c =>
        (c.nextCallIndex, c.activeCallIndex, c.callIndexStack, c.output)) =
      .ok (u64add (NewContext (.delegateToWriter [])).nextCallIndex 1,
           toString (u64add (NewContext (.delegateToWriter [])).nextCallIndex 1),
           toString (u64add (NewContext (.delegateToWriter [])).nextCallIndex 1) ::
             (NewContext (.delegateToWriter [])).callIndexStack,
           (NewContext (.delegateToWriter [])).output ++ [⟨"EVM_RUN_CALL",
             [.str "CALL",
              .str (toString (u64add (NewContext (.delegateToWriter [])).nextCallIndex 1)),
              .u64 (u64add (NewContext (.delegateToWriter [])).totalOrderingCounter 1)]⟩]) ∧
    (NewContext (.delegateToWriter [])).RecordStorageChange 1 2 3 4 =
      .error (.goPanic
        "should have been call in a transaction, something is deeply wrong") :=
  ⟨(c10_startCall (NewContext (.delegateToWriter [])) "CALL" rfl).1,
   (c10_startCall (NewContext (.delegateToWriter [])) "CALL" rfl).2.1 1 2 3 4⟩

end Firehose
